import Mathlib

/-!
# AQ dequeue options (src/src/dpiDeqOptions.c)

A shallow embedding of the dequeue options module of the driver.  The module is a
thin layer over the native call interface (OCI), so the embedding carries

* the options object (`dpiDeqOptions`: the retained connection and the native
  descriptor handle, pointers being natural numbers with `0` for `NULL`),
* the world outside the object (`World`: the reference count of every
  connection, the attribute store of every native descriptor and the list of
  external calls issued so far, oldest first),
* the outcomes of the external calls (`Natives`): the code never decides them,
  so every function takes them as an argument.

Every function of the source file except the two forwarders `dpiDeqOptions_addRef`
and `dpiDeqOptions_release` is one definition with the same name and the same
sequence of calls, tests and early returns.
-/

namespace DpiDeqOptions

/-! ## Constants and types declared outside the file -/

/-- Native status word; `sword` is a signed integer in the native headers. -/
abbrev sword := Int

/-- Return code of a function of the driver that succeeded. -/
def DPI_SUCCESS : Int := 0

/-- Return code of a function of the driver that failed; the source tests `< 0`. -/
def DPI_FAILURE : Int := -1

/-- Status by which a native call reports success. -/
def OCI_SUCCESS : sword := 0

/-- Attribute identifiers of the native headers that the file uses.  Their
numeric values are not in the source file; they are kept as distinct names. -/
inductive Attr
  | OCI_ATTR_DEQCOND
  | OCI_ATTR_CONSUMER_NAME
  | OCI_ATTR_CORRELATION
  | OCI_ATTR_DEQ_MODE
  | OCI_ATTR_DEQ_MSGID
  | OCI_ATTR_NAVIGATION
  | OCI_ATTR_TRANSFORMATION
  | OCI_ATTR_VISIBILITY
  | OCI_ATTR_WAIT
  | OCI_ATTR_MSG_DELIVERY_MODE
  deriving DecidableEq, Repr

/-- What a `void*` handed to or received from the native layer points to: a run
of bytes (text), a raw container, a 32-bit or a 16-bit unsigned number. -/
inductive AttrValue
  | text (bytes : List Nat)
  | raw (bytes : List Nat)
  | ub4 (v : Nat)
  | ub2 (v : Nat)
  deriving DecidableEq, Repr

/-- Bytes a value read from the native layer points to (`*value` of a text getter). -/
def AttrValue.bytes : AttrValue → List Nat
  | .text b => b
  | .raw b => b
  | _ => []

/-- Number a value read from the native layer holds (`uint32_t` read through `&ociValue`). -/
def AttrValue.num : AttrValue → Nat
  | .ub4 v => v
  | .ub2 v => v
  | _ => 0

/-- Calls into the native call interface and into the reference counting helper
of the driver, with the arguments that matter and, where the call returns one,
the status it returned.  The release of the memory of the options object by
`free(options)` is not a call of this list; it shows in `Teardown.object`. -/
inductive Call
  | dpiGen__setRefCount (conn : Nat) (increment : Int)
  | OCIDescriptorAlloc (status : sword)
  | OCIDescriptorFree (handle : Nat)
  | OCIAttrGet (handle : Nat) (attr : Attr) (status : sword)
  | OCIAttrSet (handle : Nat) (attr : Attr) (value : AttrValue) (valueLength : Nat)
      (status : sword)
  | OCIRawAssignBytes (bytes : List Nat) (valueLength : Nat) (status : sword)
  | OCIRawResize (newSize : Nat) (status : sword)
  | OCIRawPtr
  | OCIRawSize
  deriving DecidableEq, Repr

/-- Status returned by a native call that returns one and whose status the
trace records. -/
def Call.status : Call → Option sword
  | .OCIDescriptorAlloc s => some s
  | .OCIAttrGet _ _ s => some s
  | .OCIAttrSet _ _ _ _ s => some s
  | .OCIRawAssignBytes _ _ s => some s
  | .OCIRawResize _ s => some s
  | _ => none

/-- A descriptor release. -/
def Call.isDescriptorFree : Call → Bool
  | .OCIDescriptorFree _ => true
  | _ => false

/-- A descriptor allocation. -/
def Call.isDescriptorAlloc : Call → Bool
  | .OCIDescriptorAlloc _ => true
  | _ => false

/-- A drop of a connection reference. -/
def Call.isConnRelease : Call → Bool
  | .dpiGen__setRefCount _ i => decide (i < 0)
  | _ => false

/-- A shrink of the temporary raw container to length zero. -/
def Call.isRawShrink : Call → Bool
  | .OCIRawResize 0 _ => true
  | _ => false

/-- The container resize call, whatever its arguments. -/
def Call.isRawResize : Call → Bool
  | .OCIRawResize _ _ => true
  | _ => false

/-- The options object: `conn` and `handle` of `dpiDeqOptions`, `0` being `NULL`. -/
structure dpiDeqOptions where
  conn : Nat
  handle : Nat
  deriving DecidableEq, Repr

/-- Everything outside the options object that the file reads or changes. -/
structure World where
  /-- reference count of the connection at each address -/
  refCount : Nat → Int
  /-- attribute store of the native descriptor behind each handle -/
  descriptor : Nat → Attr → AttrValue
  /-- external calls issued so far, oldest first -/
  calls : List Call

/-- Outcomes of the external calls, which the code does not decide. -/
structure Natives where
  /-- return value of `dpiGen__startPublicFn` -/
  startPublicFn : Int
  /-- return value of `dpiGen__setRefCount` -/
  setRefCount : Int
  /-- status of `OCIDescriptorAlloc` -/
  descriptorAlloc : sword
  /-- what `OCIDescriptorAlloc` leaves in `options->handle` -/
  allocHandle : Nat
  /-- status of `OCIAttrGet` -/
  attrGet : sword
  /-- status of `OCIAttrSet` -/
  attrSet : sword
  /-- status of `OCIRawAssignBytes` -/
  rawAssignBytes : sword
  /-- status of `OCIRawResize` -/
  rawResize : sword
  deriving DecidableEq, Repr

/-- Result of a function: return code, what it wrote for the caller, the options
object and the world after the call. -/
structure Result (α : Type) where
  rc : Int
  out : α
  options : dpiDeqOptions
  world : World

/-- Result of the teardown of an options object. -/
structure Teardown where
  /-- `conn` and `handle` of the object as they stand when `free(options)` is reached -/
  fields : dpiDeqOptions
  /-- the world after the call -/
  world : World
  /-- the object behind the pointer after the call; `none` when its memory was returned -/
  object : Option dpiDeqOptions

/-! ## External functions -/

/-- Modelled from the spec: `dpiError__check` is not in the source file.  It
translates the status of a native call: the success status gives `DPI_SUCCESS`,
a failure status gives `DPI_FAILURE` (the diagnostic text it records in the
error structure is left out). -/
def dpiError__check (status : sword) : Int :=
  if status = OCI_SUCCESS then DPI_SUCCESS else DPI_FAILURE

/-- Modelled from the spec: `dpiGen__setRefCount` is not in the source file.  It
adds `increment` to the reference count of the object (retain is `+1`, release
is `-1`).  The spec gives the update of the count no failure mode, so the count
is updated whatever code is returned; the code returned is the outcome
`n.setRefCount`.  What happens when a count reaches zero belongs to the module
of the connection. -/
def dpiGen__setRefCount (n : Natives) (w : World) (conn : Nat) (increment : Int) : Int × World :=
  (n.setRefCount,
   { w with
     refCount := fun c => if c = conn then w.refCount c + increment else w.refCount c
     calls := w.calls ++ [Call.dpiGen__setRefCount conn increment] })

/-- Modelled from the spec: native descriptor allocation; it leaves a handle in
`options->handle` and returns a status. -/
def OCIDescriptorAlloc (n : Natives) (w : World) : sword × Nat × World :=
  (n.descriptorAlloc, n.allocHandle,
   { w with calls := w.calls ++ [Call.OCIDescriptorAlloc n.descriptorAlloc] })

/-- Modelled from the spec: native descriptor release. -/
def OCIDescriptorFree (w : World) (handle : Nat) : World :=
  { w with calls := w.calls ++ [Call.OCIDescriptorFree handle] }

/-- Modelled from the spec: native attribute read.  The descriptor is a store
from attribute identifier to value; a successful read hands back the stored
value, a failed read writes nothing. -/
def OCIAttrGet (n : Natives) (w : World) (handle : Nat) (attr : Attr) :
    sword × Option AttrValue × World :=
  (n.attrGet,
   if n.attrGet = OCI_SUCCESS then some (w.descriptor handle attr) else none,
   { w with calls := w.calls ++ [Call.OCIAttrGet handle attr n.attrGet] })

/-- What the native layer keeps of a value passed with a length: of text, the
first `valueLength` bytes; anything else as it is. -/
def nativeCopy (value : AttrValue) (valueLength : Nat) : AttrValue :=
  match value with
  | .text b => .text (b.take valueLength)
  | v => v

/-- Modelled from the spec: native attribute write.  A successful write stores
the value under the attribute identifier; a failed write does not take effect. -/
def OCIAttrSet (n : Natives) (w : World) (handle : Nat) (value : AttrValue) (valueLength : Nat)
    (attr : Attr) : sword × World :=
  (n.attrSet,
   { w with
     descriptor :=
       if n.attrSet = OCI_SUCCESS then
         fun h a => if h = handle ∧ a = attr then nativeCopy value valueLength
                    else w.descriptor h a
       else w.descriptor
     calls := w.calls ++ [Call.OCIAttrSet handle attr value valueLength n.attrSet] })

/-- Modelled from the spec: wrap the bytes of the caller into a raw container
sized to the input; on failure the container pointer stays as it was. -/
def OCIRawAssignBytes (n : Natives) (w : World) (value : List Nat) (valueLength : Nat)
    (rawValue : List Nat) : sword × List Nat × World :=
  (n.rawAssignBytes,
   if n.rawAssignBytes = OCI_SUCCESS then value.take valueLength else rawValue,
   { w with calls := w.calls ++ [Call.OCIRawAssignBytes value valueLength n.rawAssignBytes] })

/-- Modelled from the spec: resize a raw container; on failure it stays as it was. -/
def OCIRawResize (n : Natives) (w : World) (newSize : Nat) (rawValue : List Nat) :
    sword × List Nat × World :=
  (n.rawResize,
   if n.rawResize = OCI_SUCCESS then rawValue.take newSize else rawValue,
   { w with calls := w.calls ++ [Call.OCIRawResize newSize n.rawResize] })

/-- Modelled from the spec: pointer to the bytes of a raw container. -/
def OCIRawPtr (w : World) (rawValue : AttrValue) : List Nat × World :=
  (rawValue.bytes, { w with calls := w.calls ++ [Call.OCIRawPtr] })

/-- Modelled from the spec: size of a raw container. -/
def OCIRawSize (w : World) (rawValue : AttrValue) : Nat × World :=
  (rawValue.bytes.length, { w with calls := w.calls ++ [Call.OCIRawSize] })

/-! ## The functions of the source file

`dpiDeqOptions_addRef` and `dpiDeqOptions_release` only forward to the generic
handle functions of another file and are not embedded. -/

/-- Embeds `dpiDeqOptions__create` (lines 24-39): retain the connection, store it
in the object, allocate the native descriptor into `options->handle` and check
the status of the allocation. -/
def dpiDeqOptions__create (n : Natives) (w : World) (options : dpiDeqOptions) (conn : Nat) :
    Result Unit :=
  let r := dpiGen__setRefCount n w conn 1
  if r.1 < 0 then
    { rc := DPI_FAILURE, out := (), options := options, world := r.2 }
  else
    let options1 : dpiDeqOptions := { options with conn := conn }
    let a := OCIDescriptorAlloc n r.2
    { rc := dpiError__check a.1, out := (),
      options := { options1 with handle := a.2.1 }, world := a.2.2 }

/-- Embeds `dpiDeqOptions__free` (lines 46-57): release the descriptor if the
handle is set and clear the handle, then drop the connection reference if the
connection is set and clear it, then return the memory of the object with
`free(options)` (line 56), after which there is no object behind the pointer.
The return value of the reference count helper is not looked at. -/
def dpiDeqOptions__free (n : Natives) (w : World) (options : dpiDeqOptions) : Teardown :=
  let s1 : dpiDeqOptions × World :=
    if options.handle ≠ 0 then
      ({ options with handle := 0 }, OCIDescriptorFree w options.handle)
    else (options, w)
  let s2 : dpiDeqOptions × World :=
    if s1.1.conn ≠ 0 then
      ({ s1.1 with conn := 0 }, (dpiGen__setRefCount n s1.2 s1.1.conn (-1)).2)
    else s1
  { fields := s2.1, world := s2.2, object := none }

/-- Embeds `dpiDeqOptions__getAttrValue` (lines 64-78).  The pointers `value` and
`valueLength` are written by the native call only; `out` is what it wrote
through them, `none` when nothing was written. -/
def dpiDeqOptions__getAttrValue (n : Natives) (w : World) (options : dpiDeqOptions)
    (attr : Attr) : Result (Option AttrValue) :=
  if n.startPublicFn < 0 then
    { rc := DPI_FAILURE, out := none, options := options, world := w }
  else
    let g := OCIAttrGet n w options.handle attr
    { rc := dpiError__check g.1, out := g.2.1, options := options, world := g.2.2 }

/-- Embeds `dpiDeqOptions__setAttrValue` (lines 85-99). -/
def dpiDeqOptions__setAttrValue (n : Natives) (w : World) (options : dpiDeqOptions)
    (attr : Attr) (value : AttrValue) (valueLength : Nat) : Result Unit :=
  if n.startPublicFn < 0 then
    { rc := DPI_FAILURE, out := (), options := options, world := w }
  else
    let s := OCIAttrSet n w options.handle value valueLength attr
    { rc := dpiError__check s.1, out := (), options := options, world := s.2 }

/-- The variables `*value` and `*valueLength` of the caller of a text getter
after the native call wrote (or did not write) through the two pointers. -/
def writeText (written : Option AttrValue) (value : List Nat) (valueLength : Nat) :
    List Nat × Nat :=
  match written with
  | some v => (v.bytes, v.bytes.length)
  | none => (value, valueLength)

/-- A 32-bit variable after the native call wrote (or did not write) through a
pointer to it. -/
def writeNum (written : Option AttrValue) (value : Nat) : Nat :=
  match written with
  | some v => v.num
  | none => value

/-- Embeds `dpiDeqOptions_getCondition` (lines 116-121): the native call writes
through `value` and `valueLength` of the caller. -/
def dpiDeqOptions_getCondition (n : Natives) (w : World) (options : dpiDeqOptions)
    (value : List Nat) (valueLength : Nat) : Result (List Nat × Nat) :=
  let r := dpiDeqOptions__getAttrValue n w options Attr.OCI_ATTR_DEQCOND
  { rc := r.rc, out := writeText r.out value valueLength, options := r.options,
    world := r.world }

/-- Embeds `dpiDeqOptions_getConsumerName` (lines 128-133): the native call writes
through `value` and `valueLength` of the caller. -/
def dpiDeqOptions_getConsumerName (n : Natives) (w : World) (options : dpiDeqOptions)
    (value : List Nat) (valueLength : Nat) : Result (List Nat × Nat) :=
  let r := dpiDeqOptions__getAttrValue n w options Attr.OCI_ATTR_CONSUMER_NAME
  { rc := r.rc, out := writeText r.out value valueLength, options := r.options,
    world := r.world }

/-- Embeds `dpiDeqOptions_getCorrelation` (lines 140-145): the native call writes
through `value` and `valueLength` of the caller. -/
def dpiDeqOptions_getCorrelation (n : Natives) (w : World) (options : dpiDeqOptions)
    (value : List Nat) (valueLength : Nat) : Result (List Nat × Nat) :=
  let r := dpiDeqOptions__getAttrValue n w options Attr.OCI_ATTR_CORRELATION
  { rc := r.rc, out := writeText r.out value valueLength, options := r.options,
    world := r.world }

/-- Embeds `dpiDeqOptions_getMode` (lines 152-161): the local `ociValue`
receives the attribute; on failure the function returns before `*value` is
assigned. -/
def dpiDeqOptions_getMode (n : Natives) (w : World) (options : dpiDeqOptions)
    (value : Nat) : Result Nat :=
  let r := dpiDeqOptions__getAttrValue n w options Attr.OCI_ATTR_DEQ_MODE
  let ociValue := writeNum r.out 0
  if r.rc < 0 then
    { rc := DPI_FAILURE, out := value, options := r.options, world := r.world }
  else
    { rc := DPI_SUCCESS, out := ociValue, options := r.options, world := r.world }

/-- Embeds `dpiDeqOptions_getMsgId` (lines 168-179): read the raw container, then
take its pointer and its size. -/
def dpiDeqOptions_getMsgId (n : Natives) (w : World) (options : dpiDeqOptions)
    (value : List Nat) (valueLength : Nat) : Result (List Nat × Nat) :=
  let r := dpiDeqOptions__getAttrValue n w options Attr.OCI_ATTR_DEQ_MSGID
  let rawValue : AttrValue := (r.out).getD (AttrValue.raw [])
  if r.rc < 0 then
    { rc := DPI_FAILURE, out := (value, valueLength), options := r.options, world := r.world }
  else
    let p := OCIRawPtr r.world rawValue
    let z := OCIRawSize p.2 rawValue
    { rc := DPI_SUCCESS, out := (p.1, z.1), options := r.options, world := z.2 }

/-- Embeds `dpiDeqOptions_getNavigation` (lines 186-196): the local `ociValue`
receives the attribute; on failure the function returns before `*value` is
assigned. -/
def dpiDeqOptions_getNavigation (n : Natives) (w : World) (options : dpiDeqOptions)
    (value : Nat) : Result Nat :=
  let r := dpiDeqOptions__getAttrValue n w options Attr.OCI_ATTR_NAVIGATION
  let ociValue := writeNum r.out 0
  if r.rc < 0 then
    { rc := DPI_FAILURE, out := value, options := r.options, world := r.world }
  else
    { rc := DPI_SUCCESS, out := ociValue, options := r.options, world := r.world }

/-- Embeds `dpiDeqOptions_getTransformation` (lines 203-208): the native call writes
through `value` and `valueLength` of the caller. -/
def dpiDeqOptions_getTransformation (n : Natives) (w : World) (options : dpiDeqOptions)
    (value : List Nat) (valueLength : Nat) : Result (List Nat × Nat) :=
  let r := dpiDeqOptions__getAttrValue n w options Attr.OCI_ATTR_TRANSFORMATION
  { rc := r.rc, out := writeText r.out value valueLength, options := r.options,
    world := r.world }

/-- Embeds `dpiDeqOptions_getVisibility` (lines 215-224): the local `ociValue`
receives the attribute; on failure the function returns before `*value` is
assigned. -/
def dpiDeqOptions_getVisibility (n : Natives) (w : World) (options : dpiDeqOptions)
    (value : Nat) : Result Nat :=
  let r := dpiDeqOptions__getAttrValue n w options Attr.OCI_ATTR_VISIBILITY
  let ociValue := writeNum r.out 0
  if r.rc < 0 then
    { rc := DPI_FAILURE, out := value, options := r.options, world := r.world }
  else
    { rc := DPI_SUCCESS, out := ociValue, options := r.options, world := r.world }

/-- Embeds `dpiDeqOptions_getWait` (lines 231-235): the native call writes
straight into the variable of the caller. -/
def dpiDeqOptions_getWait (n : Natives) (w : World) (options : dpiDeqOptions) (value : Nat) :
    Result Nat :=
  let r := dpiDeqOptions__getAttrValue n w options Attr.OCI_ATTR_WAIT
  { rc := r.rc, out := writeNum r.out value, options := r.options, world := r.world }

/-- Embeds `dpiDeqOptions_setCondition` (lines 252-257). -/
def dpiDeqOptions_setCondition (n : Natives) (w : World) (options : dpiDeqOptions)
    (value : List Nat) (valueLength : Nat) : Result Unit :=
  dpiDeqOptions__setAttrValue n w options Attr.OCI_ATTR_DEQCOND (AttrValue.text value) valueLength

/-- Embeds `dpiDeqOptions_setConsumerName` (lines 264-269). -/
def dpiDeqOptions_setConsumerName (n : Natives) (w : World) (options : dpiDeqOptions)
    (value : List Nat) (valueLength : Nat) : Result Unit :=
  dpiDeqOptions__setAttrValue n w options Attr.OCI_ATTR_CONSUMER_NAME (AttrValue.text value) valueLength

/-- Embeds `dpiDeqOptions_setCorrelation` (lines 276-281). -/
def dpiDeqOptions_setCorrelation (n : Natives) (w : World) (options : dpiDeqOptions)
    (value : List Nat) (valueLength : Nat) : Result Unit :=
  dpiDeqOptions__setAttrValue n w options Attr.OCI_ATTR_CORRELATION (AttrValue.text value) valueLength

/-- Embeds `dpiDeqOptions_setDeliveryMode` (lines 288-295); `uint16_t ociValue =
value` converts to 16 bits. -/
def dpiDeqOptions_setDeliveryMode (n : Natives) (w : World) (options : dpiDeqOptions)
    (value : Nat) : Result Unit :=
  let ociValue := value % 2 ^ 16
  dpiDeqOptions__setAttrValue n w options Attr.OCI_ATTR_MSG_DELIVERY_MODE
    (AttrValue.ub2 ociValue) 0

/-- Embeds `dpiDeqOptions_setMode` (lines 302-308); `uint32_t ociValue = value`
converts to 32 bits. -/
def dpiDeqOptions_setMode (n : Natives) (w : World) (options : dpiDeqOptions)
    (value : Nat) : Result Unit :=
  let ociValue := value % 2 ^ 32
  dpiDeqOptions__setAttrValue n w options Attr.OCI_ATTR_DEQ_MODE (AttrValue.ub4 ociValue) 0

/-- Embeds `dpiDeqOptions_setNavigation` (lines 340-346); `uint32_t ociValue = value`
converts to 32 bits. -/
def dpiDeqOptions_setNavigation (n : Natives) (w : World) (options : dpiDeqOptions)
    (value : Nat) : Result Unit :=
  let ociValue := value % 2 ^ 32
  dpiDeqOptions__setAttrValue n w options Attr.OCI_ATTR_NAVIGATION (AttrValue.ub4 ociValue) 0

/-- Embeds `dpiDeqOptions_setTransformation` (lines 353-358). -/
def dpiDeqOptions_setTransformation (n : Natives) (w : World) (options : dpiDeqOptions)
    (value : List Nat) (valueLength : Nat) : Result Unit :=
  dpiDeqOptions__setAttrValue n w options Attr.OCI_ATTR_TRANSFORMATION (AttrValue.text value) valueLength

/-- Embeds `dpiDeqOptions_setVisibility` (lines 365-371); `uint32_t ociValue = value`
converts to 32 bits. -/
def dpiDeqOptions_setVisibility (n : Natives) (w : World) (options : dpiDeqOptions)
    (value : Nat) : Result Unit :=
  let ociValue := value % 2 ^ 32
  dpiDeqOptions__setAttrValue n w options Attr.OCI_ATTR_VISIBILITY (AttrValue.ub4 ociValue) 0

/-- Embeds `dpiDeqOptions_setWait` (lines 378-382): the `uint32_t` argument is
passed by address as it is. -/
def dpiDeqOptions_setWait (n : Natives) (w : World) (options : dpiDeqOptions) (value : Nat) :
    Result Unit :=
  dpiDeqOptions__setAttrValue n w options Attr.OCI_ATTR_WAIT (AttrValue.ub4 value) 0

/-- Embeds `dpiDeqOptions_setMsgId` (lines 315-333): check the handle, wrap the
bytes (return on failure), assign the attribute, shrink the container to zero
without looking at the status of the shrink, return the check of the status of
the assignment.  The function has no output parameter; `out` is the temporary
container `rawValue` (the bytes it holds, `[]` for `NULL` or length zero) as it
stands when the function returns. -/
def dpiDeqOptions_setMsgId (n : Natives) (w : World) (options : dpiDeqOptions)
    (value : List Nat) (valueLength : Nat) : Result (List Nat) :=
  let rawValue : List Nat := []
  if n.startPublicFn < 0 then
    { rc := DPI_FAILURE, out := rawValue, options := options, world := w }
  else
    let a := OCIRawAssignBytes n w value valueLength rawValue
    if dpiError__check a.1 < 0 then
      { rc := DPI_FAILURE, out := a.2.1, options := options, world := a.2.2 }
    else
      let s := OCIAttrSet n a.2.2 options.handle (AttrValue.raw a.2.1) valueLength
        Attr.OCI_ATTR_DEQ_MSGID
      let z := OCIRawResize n s.2 0 a.2.1
      { rc := dpiError__check s.1, out := z.2.1, options := options, world := z.2.2 }

/-! ## The public getters and setters as one family -/

/-- The public getters and setters of the file: nine getters and ten setters. -/
inductive PublicFn
  | getCondition | getConsumerName | getCorrelation | getMode | getMsgId
  | getNavigation | getTransformation | getVisibility | getWait
  | setCondition | setConsumerName | setCorrelation | setDeliveryMode | setMode
  | setMsgId | setNavigation | setTransformation | setVisibility | setWait
  deriving DecidableEq, Repr

/-- Whether the function is one of the setters. -/
def PublicFn.isSetter : PublicFn → Bool
  | .setCondition | .setConsumerName | .setCorrelation | .setDeliveryMode | .setMode
  | .setMsgId | .setNavigation | .setTransformation | .setVisibility | .setWait => true
  | _ => false

/-- The arguments a caller passes by value: a byte buffer with its length for the
text and message id setters, a number for the others. -/
structure Args where
  value : List Nat
  valueLength : Nat
  scalar : Nat
  deriving DecidableEq, Repr

/-- The output variables of the caller: `*value` and `*valueLength` of the text
and message id getters, `*value` of the numeric getters. -/
structure Outs where
  value : List Nat
  valueLength : Nat
  scalar : Nat
  deriving DecidableEq, Repr

/-- Output variables after a text or message id getter. -/
def Outs.withText (o : Outs) (r : Result (List Nat × Nat)) : Result Outs :=
  { rc := r.rc, out := { o with value := r.out.1, valueLength := r.out.2 },
    options := r.options, world := r.world }

/-- Output variables after a numeric getter. -/
def Outs.withNum (o : Outs) (r : Result Nat) : Result Outs :=
  { rc := r.rc, out := { o with scalar := r.out }, options := r.options, world := r.world }

/-- Output variables after a setter, which has no output parameter. -/
def Outs.keep {α : Type} (o : Outs) (r : Result α) : Result Outs :=
  { rc := r.rc, out := o, options := r.options, world := r.world }

/-- Call of a public getter or setter with the arguments and output variables of
the caller. -/
def PublicFn.call (f : PublicFn) (n : Natives) (w : World) (options : dpiDeqOptions)
    (a : Args) (o : Outs) : Result Outs :=
  match f with
  | .getCondition => o.withText (dpiDeqOptions_getCondition n w options o.value o.valueLength)
  | .getConsumerName =>
      o.withText (dpiDeqOptions_getConsumerName n w options o.value o.valueLength)
  | .getCorrelation => o.withText (dpiDeqOptions_getCorrelation n w options o.value o.valueLength)
  | .getMode => o.withNum (dpiDeqOptions_getMode n w options o.scalar)
  | .getMsgId => o.withText (dpiDeqOptions_getMsgId n w options o.value o.valueLength)
  | .getNavigation => o.withNum (dpiDeqOptions_getNavigation n w options o.scalar)
  | .getTransformation =>
      o.withText (dpiDeqOptions_getTransformation n w options o.value o.valueLength)
  | .getVisibility => o.withNum (dpiDeqOptions_getVisibility n w options o.scalar)
  | .getWait => o.withNum (dpiDeqOptions_getWait n w options o.scalar)
  | .setCondition => o.keep (dpiDeqOptions_setCondition n w options a.value a.valueLength)
  | .setConsumerName => o.keep (dpiDeqOptions_setConsumerName n w options a.value a.valueLength)
  | .setCorrelation => o.keep (dpiDeqOptions_setCorrelation n w options a.value a.valueLength)
  | .setDeliveryMode => o.keep (dpiDeqOptions_setDeliveryMode n w options a.scalar)
  | .setMode => o.keep (dpiDeqOptions_setMode n w options a.scalar)
  | .setMsgId => o.keep (dpiDeqOptions_setMsgId n w options a.value a.valueLength)
  | .setNavigation => o.keep (dpiDeqOptions_setNavigation n w options a.scalar)
  | .setTransformation =>
      o.keep (dpiDeqOptions_setTransformation n w options a.value a.valueLength)
  | .setVisibility => o.keep (dpiDeqOptions_setVisibility n w options a.scalar)
  | .setWait => o.keep (dpiDeqOptions_setWait n w options a.scalar)

/-- The calls issued between two worlds, the second reached from the first. -/
def issued (before after : World) : List Call :=
  after.calls.drop before.calls.length

/-! ## Fields with a setter and a getter -/

/-- The text fields. -/
inductive TextField
  | Condition | ConsumerName | Correlation | Transformation
  deriving DecidableEq, Repr

/-- The setter of a text field. -/
def TextField.set : TextField →
    Natives → World → dpiDeqOptions → List Nat → Nat → Result Unit
  | .Condition => dpiDeqOptions_setCondition
  | .ConsumerName => dpiDeqOptions_setConsumerName
  | .Correlation => dpiDeqOptions_setCorrelation
  | .Transformation => dpiDeqOptions_setTransformation

/-- The getter of a text field. -/
def TextField.get : TextField →
    Natives → World → dpiDeqOptions → List Nat → Nat → Result (List Nat × Nat)
  | .Condition => dpiDeqOptions_getCondition
  | .ConsumerName => dpiDeqOptions_getConsumerName
  | .Correlation => dpiDeqOptions_getCorrelation
  | .Transformation => dpiDeqOptions_getTransformation

/-- The 32-bit fields that have both a setter and a getter. -/
inductive ScalarField
  | Mode | Navigation | Visibility | Wait
  deriving DecidableEq, Repr

/-- The setter of a 32-bit field. -/
def ScalarField.set : ScalarField → Natives → World → dpiDeqOptions → Nat → Result Unit
  | .Mode => dpiDeqOptions_setMode
  | .Navigation => dpiDeqOptions_setNavigation
  | .Visibility => dpiDeqOptions_setVisibility
  | .Wait => dpiDeqOptions_setWait

/-- The getter of a 32-bit field. -/
def ScalarField.get : ScalarField → Natives → World → dpiDeqOptions → Nat → Result Nat
  | .Mode => dpiDeqOptions_getMode
  | .Navigation => dpiDeqOptions_getNavigation
  | .Visibility => dpiDeqOptions_getVisibility
  | .Wait => dpiDeqOptions_getWait

/-- A sequence of teardown steps on one pointer, each step with its own outcomes
of the external calls.  `object` is the object behind the pointer, `none` once
its memory was returned; a step on returned memory is a use after free and has
no defined result (`none`). -/
def teardownSeq : List Natives → World → Option dpiDeqOptions → Option World
  | [], w, _ => some w
  | _ :: _, _, none => none
  | n :: ns, w, some options =>
      teardownSeq ns (dpiDeqOptions__free n w options).world
        (dpiDeqOptions__free n w options).object

/-! ## Concrete inputs used by the witnesses and counterexamples -/

/-- Outcomes in which every external call succeeds; the allocation yields handle 7. -/
def allOk : Natives :=
  { startPublicFn := 0, setRefCount := 0, descriptorAlloc := 0, allocHandle := 7,
    attrGet := 0, attrSet := 0, rawAssignBytes := 0, rawResize := 0 }

/-- A world with every connection counted once, empty attributes and no call yet. -/
def world0 : World :=
  { refCount := fun _ => 1, descriptor := fun _ _ => AttrValue.text [], calls := [] }

/-- An open options object: connection 1, descriptor handle 7. -/
def options0 : dpiDeqOptions := { conn := 1, handle := 7 }

/-- A zero-initialised options object. -/
def optionsZero : dpiDeqOptions := { conn := 0, handle := 0 }

/-- Output variables of a caller before any getter ran. -/
def outs0 : Outs := { value := [], valueLength := 0, scalar := 0 }

/-- The bytes of "SUB1". -/
def SUB1 : List Nat := [83, 85, 66, 49]

/-- Outcomes in which the descriptor allocation fails and leaves no handle. -/
def allocFails : Natives := { allOk with descriptorAlloc := -1, allocHandle := 0 }

/-- Outcomes in which retaining the connection fails. -/
def retainFails : Natives := { allOk with setRefCount := -1 }

/-- Outcomes in which the attribute assignment fails. -/
def assignFails : Natives := { allOk with attrSet := -1 }

/-- Outcomes in which only the shrink of the raw container fails. -/
def shrinkFails : Natives := { allOk with rawResize := -1 }

/-- Outcomes in which the open-handle check fails and every other call would
succeed. -/
def startFails : Natives := { allOk with startPublicFn := -1 }

/-- Output variables of a caller that hold earlier results. -/
def outs1 : Outs := { value := SUB1, valueLength := 4, scalar := 9 }

/-- Arguments of a caller passing "SUB1" with length 4. -/
def args0 : Args := { value := SUB1, valueLength := 4, scalar := 0 }

/-! ## Theorems -/

/-- C5: when the open-handle check `dpiGen__startPublicFn` fails, every public
getter and setter returns `DPI_FAILURE`, issues no external call at all (the
list of calls is the one before, nothing was issued) and leaves the output
variables of the caller as they were. -/
theorem startPublicFn_failure_no_call_no_write (f : PublicFn) (n : Natives) (w : World)
    (options : dpiDeqOptions) (a : Args) (o : Outs) (h : n.startPublicFn < 0) :
    (f.call n w options a o).rc = DPI_FAILURE ∧
    (f.call n w options a o).world.calls = w.calls ∧
    issued w (f.call n w options a o).world = [] ∧
    (f.call n w options a o).out = o := by
  cases f <;>
    simp [PublicFn.call, Outs.withText, Outs.withNum, Outs.keep, issued,
      dpiDeqOptions_getCondition, dpiDeqOptions_getConsumerName, dpiDeqOptions_getCorrelation,
      dpiDeqOptions_getTransformation, dpiDeqOptions_getMode, dpiDeqOptions_getNavigation,
      dpiDeqOptions_getVisibility, dpiDeqOptions_getWait, dpiDeqOptions_getMsgId,
      dpiDeqOptions_setCondition, dpiDeqOptions_setConsumerName, dpiDeqOptions_setCorrelation,
      dpiDeqOptions_setTransformation, dpiDeqOptions_setMode, dpiDeqOptions_setNavigation,
      dpiDeqOptions_setVisibility, dpiDeqOptions_setWait, dpiDeqOptions_setDeliveryMode,
      dpiDeqOptions_setMsgId,
      dpiDeqOptions__getAttrValue, dpiDeqOptions__setAttrValue, writeText, writeNum,
      DPI_FAILURE, h]

/-- Witness of C5: `dpiDeqOptions_getMsgId` on a handle whose check fails returns
`DPI_FAILURE`, issues nothing and leaves the output variables as they were. -/
theorem startPublicFn_failure_no_call_no_write_witness :
    startFails.startPublicFn < 0 ∧
    (PublicFn.getMsgId.call startFails world0 options0 args0 outs1).rc = DPI_FAILURE ∧
    issued world0 (PublicFn.getMsgId.call startFails world0 options0 args0 outs1).world = [] ∧
    (PublicFn.getMsgId.call startFails world0 options0 args0 outs1).out = outs1 :=
  ⟨by decide,
   (startPublicFn_failure_no_call_no_write PublicFn.getMsgId startFails world0 options0 args0
      outs1 (by decide)).1,
   (startPublicFn_failure_no_call_no_write PublicFn.getMsgId startFails world0 options0 args0
      outs1 (by decide)).2.2.1,
   (startPublicFn_failure_no_call_no_write PublicFn.getMsgId startFails world0 options0 args0
      outs1 (by decide)).2.2.2⟩

/-- C9: every public getter and setter leaves the options object (connection
reference and descriptor handle) and every reference count as they were, whether
it succeeds or fails; and when a setter does not return `DPI_SUCCESS`, the
attribute store of every descriptor is the one before the call. -/
theorem accessors_leave_handle_state (f : PublicFn) (n : Natives) (w : World)
    (options : dpiDeqOptions) (a : Args) (o : Outs) :
    (f.call n w options a o).options = options ∧
    (f.call n w options a o).world.refCount = w.refCount ∧
    (f.isSetter = true → (f.call n w options a o).rc ≠ DPI_SUCCESS →
      (f.call n w options a o).world.descriptor = w.descriptor) := by
  cases f <;>
    simp [PublicFn.call, PublicFn.isSetter, Outs.withText, Outs.withNum, Outs.keep,
      dpiDeqOptions_getCondition, dpiDeqOptions_getConsumerName, dpiDeqOptions_getCorrelation,
      dpiDeqOptions_getTransformation, dpiDeqOptions_getMode, dpiDeqOptions_getNavigation,
      dpiDeqOptions_getVisibility, dpiDeqOptions_getWait, dpiDeqOptions_getMsgId,
      dpiDeqOptions_setCondition, dpiDeqOptions_setConsumerName, dpiDeqOptions_setCorrelation,
      dpiDeqOptions_setTransformation, dpiDeqOptions_setMode, dpiDeqOptions_setNavigation,
      dpiDeqOptions_setVisibility, dpiDeqOptions_setWait, dpiDeqOptions_setDeliveryMode,
      dpiDeqOptions_setMsgId,
      dpiDeqOptions__getAttrValue, dpiDeqOptions__setAttrValue, writeText, writeNum,
      OCIAttrGet, OCIAttrSet, OCIRawAssignBytes, OCIRawResize, OCIRawPtr, OCIRawSize,
      dpiError__check, DPI_FAILURE, DPI_SUCCESS, OCI_SUCCESS] <;>
    split_ifs <;> simp_all

/-- Witness of C9: `dpiDeqOptions_setMsgId` whose assignment fails is a setter
that does not return `DPI_SUCCESS`; object, counts and attribute store are the
ones before the call. -/
theorem accessors_leave_handle_state_witness :
    PublicFn.setMsgId.isSetter = true ∧
    (PublicFn.setMsgId.call assignFails world0 options0 args0 outs0).rc ≠ DPI_SUCCESS ∧
    (PublicFn.setMsgId.call assignFails world0 options0 args0 outs0).options = options0 ∧
    (PublicFn.setMsgId.call assignFails world0 options0 args0 outs0).world.refCount
      = world0.refCount ∧
    (PublicFn.setMsgId.call assignFails world0 options0 args0 outs0).world.descriptor
      = world0.descriptor :=
  ⟨by decide, by decide,
   (accessors_leave_handle_state PublicFn.setMsgId assignFails world0 options0 args0 outs0).1,
   (accessors_leave_handle_state PublicFn.setMsgId assignFails world0 options0 args0
      outs0).2.1,
   (accessors_leave_handle_state PublicFn.setMsgId assignFails world0 options0 args0
      outs0).2.2 (by decide) (by decide)⟩

/-- A successful attribute write stored the value under the attribute identifier
of the descriptor of the object and left the object as it was. -/
theorem setAttrValue_stored (n : Natives) (w : World) (options : dpiDeqOptions) (attr : Attr)
    (value : AttrValue) (valueLength : Nat)
    (h : (dpiDeqOptions__setAttrValue n w options attr value valueLength).rc = DPI_SUCCESS) :
    (dpiDeqOptions__setAttrValue n w options attr value valueLength).world.descriptor
        options.handle attr = nativeCopy value valueLength ∧
    (dpiDeqOptions__setAttrValue n w options attr value valueLength).options = options := by
  unfold dpiDeqOptions__setAttrValue at h ⊢
  by_cases hs : n.startPublicFn < 0
  · simp [hs, DPI_FAILURE, DPI_SUCCESS] at h
  · by_cases ha : n.attrSet = OCI_SUCCESS
    · simp [hs, ha, OCIAttrSet]
    · simp [hs, ha, OCIAttrSet, dpiError__check, DPI_FAILURE, DPI_SUCCESS] at h

/-- An attribute read on an open handle that the native layer answers returns
`DPI_SUCCESS` and hands back the stored value. -/
theorem getAttrValue_read (n : Natives) (w : World) (options : dpiDeqOptions) (attr : Attr)
    (hopen : 0 ≤ n.startPublicFn) (hread : n.attrGet = OCI_SUCCESS) :
    (dpiDeqOptions__getAttrValue n w options attr).rc = DPI_SUCCESS ∧
    (dpiDeqOptions__getAttrValue n w options attr).out
      = some (w.descriptor options.handle attr) := by
  have hs : ¬ n.startPublicFn < 0 := not_lt.mpr hopen
  simp [dpiDeqOptions__getAttrValue, hs, hread, OCIAttrGet, dpiError__check]

/-- C1: round trip of the text fields Condition, ConsumerName, Correlation and
Transformation.  For a byte string `v` of length `len`: if the setter returned
`DPI_SUCCESS` and the getter is called next on the open handle, the native store
answering the read, then the getter returns `DPI_SUCCESS` and hands back
`(v, len)`, whatever the output variables held before. -/
theorem text_set_get_roundtrip (X : TextField) (n1 n2 : Natives) (w : World)
    (options : dpiDeqOptions) (v : List Nat) (len : Nat) (value0 : List Nat) (len0 : Nat)
    (hlen : v.length = len)
    (hset : (X.set n1 w options v len).rc = DPI_SUCCESS)
    (hopen : 0 ≤ n2.startPublicFn) (hread : n2.attrGet = OCI_SUCCESS) :
    (X.get n2 (X.set n1 w options v len).world (X.set n1 w options v len).options
        value0 len0).rc = DPI_SUCCESS ∧
    (X.get n2 (X.set n1 w options v len).world (X.set n1 w options v len).options
        value0 len0).out = (v, len) := by
  subst hlen
  cases X <;>
  · simp only [TextField.set, TextField.get, dpiDeqOptions_getCondition,
      dpiDeqOptions_getConsumerName, dpiDeqOptions_getCorrelation,
      dpiDeqOptions_getTransformation, dpiDeqOptions_setCondition,
      dpiDeqOptions_setConsumerName, dpiDeqOptions_setCorrelation,
      dpiDeqOptions_setTransformation] at hset ⊢
    obtain ⟨hst, hop⟩ := setAttrValue_stored _ _ _ _ _ _ hset
    obtain ⟨hrc, hout⟩ := getAttrValue_read n2 _ options _ hopen hread
    rw [hop]
    refine ⟨hrc, ?_⟩
    rw [hout, hst]
    simp [writeText, nativeCopy, AttrValue.bytes]

/-- Witness of C1: setConsumerName("SUB1", 4) followed by getConsumerName gives
("SUB1", 4). -/
theorem text_set_get_roundtrip_witness :
    SUB1.length = 4 ∧
    (dpiDeqOptions_setConsumerName allOk world0 options0 SUB1 4).rc = DPI_SUCCESS ∧
    (dpiDeqOptions_getConsumerName allOk
        (dpiDeqOptions_setConsumerName allOk world0 options0 SUB1 4).world
        (dpiDeqOptions_setConsumerName allOk world0 options0 SUB1 4).options [] 0).rc
      = DPI_SUCCESS ∧
    (dpiDeqOptions_getConsumerName allOk
        (dpiDeqOptions_setConsumerName allOk world0 options0 SUB1 4).world
        (dpiDeqOptions_setConsumerName allOk world0 options0 SUB1 4).options [] 0).out
      = (SUB1, 4) :=
  ⟨by decide, by decide,
   text_set_get_roundtrip TextField.ConsumerName allOk allOk world0 options0 SUB1 4 [] 0
     (by decide) (by decide) (by decide) (by decide)⟩

/-- C2: round trip of the 32-bit fields Mode, Navigation, Visibility and Wait.
For a value `v` below `2 ^ 32`: if the setter returned `DPI_SUCCESS` and the
getter is called next on the open handle, the native store answering the read,
then the getter returns `DPI_SUCCESS` and hands back exactly `v`. -/
theorem scalar_set_get_roundtrip (X : ScalarField) (n1 n2 : Natives) (w : World)
    (options : dpiDeqOptions) (v : Nat) (value0 : Nat)
    (hv : v < 2 ^ 32)
    (hset : (X.set n1 w options v).rc = DPI_SUCCESS)
    (hopen : 0 ≤ n2.startPublicFn) (hread : n2.attrGet = OCI_SUCCESS) :
    (X.get n2 (X.set n1 w options v).world (X.set n1 w options v).options value0).rc
      = DPI_SUCCESS ∧
    (X.get n2 (X.set n1 w options v).world (X.set n1 w options v).options value0).out
      = v := by
  have hv2 : v < 4294967296 := by simpa using hv
  cases X <;>
  · simp only [ScalarField.set, ScalarField.get, dpiDeqOptions_getMode,
      dpiDeqOptions_getNavigation, dpiDeqOptions_getVisibility, dpiDeqOptions_getWait,
      dpiDeqOptions_setMode, dpiDeqOptions_setNavigation, dpiDeqOptions_setVisibility,
      dpiDeqOptions_setWait] at hset ⊢
    obtain ⟨hst, hop⟩ := setAttrValue_stored _ _ _ _ _ _ hset
    obtain ⟨hrc, hout⟩ := getAttrValue_read n2 _ options _ hopen hread
    rw [hop, hrc, hout, hst]
    simp [writeNum, nativeCopy, AttrValue.num, DPI_SUCCESS, hv2]

/-- Witness of C2: setWait then getWait at the wait-forever sentinel `2 ^ 32 - 1`,
at 0 (no wait) and at a large finite value. -/
theorem scalar_set_get_roundtrip_witness :
    (4294967295 < 2 ^ 32 ∧
     (dpiDeqOptions_setWait allOk world0 options0 4294967295).rc = DPI_SUCCESS ∧
     (dpiDeqOptions_getWait allOk (dpiDeqOptions_setWait allOk world0 options0 4294967295).world
        (dpiDeqOptions_setWait allOk world0 options0 4294967295).options 5).out
       = 4294967295) ∧
    (dpiDeqOptions_getWait allOk (dpiDeqOptions_setWait allOk world0 options0 0).world
        (dpiDeqOptions_setWait allOk world0 options0 0).options 5).out = 0 ∧
    (dpiDeqOptions_getWait allOk (dpiDeqOptions_setWait allOk world0 options0 4000000000).world
        (dpiDeqOptions_setWait allOk world0 options0 4000000000).options 5).out
      = 4000000000 :=
  ⟨⟨by decide, by decide,
    (scalar_set_get_roundtrip ScalarField.Wait allOk allOk world0 options0 4294967295 5
      (by decide) (by decide) (by decide) (by decide)).2⟩,
   (scalar_set_get_roundtrip ScalarField.Wait allOk allOk world0 options0 0 5
      (by decide) (by decide) (by decide) (by decide)).2,
   (scalar_set_get_roundtrip ScalarField.Wait allOk allOk world0 options0 4000000000 5
      (by decide) (by decide) (by decide) (by decide)).2⟩

/-- C3: for a connection (a pointer that is not `NULL`) with reference count `c`,
when `dpiDeqOptions__create` returns `DPI_SUCCESS` it has added exactly 1 to the
count, `dpiDeqOptions__free` applied to the created object then subtracts
exactly 1, and the count is `c` again. -/
theorem create_then_free_restores_refCount (n n2 : Natives) (w : World)
    (options : dpiDeqOptions) (conn : Nat) (hconn : conn ≠ 0)
    (hok : (dpiDeqOptions__create n w options conn).rc = DPI_SUCCESS) :
    (dpiDeqOptions__create n w options conn).world.refCount conn = w.refCount conn + 1 ∧
    (dpiDeqOptions__free n2 (dpiDeqOptions__create n w options conn).world
        (dpiDeqOptions__create n w options conn).options).2.refCount conn
      = (dpiDeqOptions__create n w options conn).world.refCount conn - 1 ∧
    (dpiDeqOptions__free n2 (dpiDeqOptions__create n w options conn).world
        (dpiDeqOptions__create n w options conn).options).2.refCount conn
      = w.refCount conn := by
  unfold dpiDeqOptions__create at hok ⊢
  by_cases hr : n.setRefCount < 0
  · simp [dpiGen__setRefCount, hr, DPI_FAILURE, DPI_SUCCESS] at hok
  · by_cases hh : n.allocHandle = 0 <;>
      simp [dpiGen__setRefCount, hr, OCIDescriptorAlloc, dpiDeqOptions__free,
        OCIDescriptorFree, hconn, hh]

/-- Witness of C3: connection 1 counted once, a zero-initialised object, every
external call succeeding. -/
theorem create_then_free_restores_refCount_witness :
    (1 : Nat) ≠ 0 ∧
    (dpiDeqOptions__create allOk world0 optionsZero 1).rc = DPI_SUCCESS ∧
    (dpiDeqOptions__create allOk world0 optionsZero 1).world.refCount 1 = 2 ∧
    (dpiDeqOptions__free allOk (dpiDeqOptions__create allOk world0 optionsZero 1).world
        (dpiDeqOptions__create allOk world0 optionsZero 1).options).2.refCount 1
      = world0.refCount 1 :=
  ⟨by decide, by decide, by decide,
   (create_then_free_restores_refCount allOk allOk world0 optionsZero 1 (by decide)
      (by decide)).2.2⟩

/-- Counterexample to C4 as stated: connection 1 is counted once, the retain
succeeds and the descriptor allocation fails; `dpiDeqOptions__create` returns
`DPI_FAILURE` and the count of the connection is 2, not 1. -/
theorem create_alloc_failure_not_rolled_back :
    allocFails.descriptorAlloc ≠ OCI_SUCCESS ∧
    world0.refCount 1 = 1 ∧
    (dpiDeqOptions__create allocFails world0 optionsZero 1).rc = DPI_FAILURE ∧
    (dpiDeqOptions__create allocFails world0 optionsZero 1).world.refCount 1 = 2 ∧
    (dpiDeqOptions__create allocFails world0 optionsZero 1).world.refCount 1
      ≠ world0.refCount 1 := by
  decide

/-- C4 as amended: when the retain succeeded and the descriptor allocation fails,
`dpiDeqOptions__create` returns `DPI_FAILURE` with the count of the connection
at `c + 1` and the connection stored in the object; the increment is undone by
`dpiDeqOptions__free` applied to that object, after which the count is `c`. -/
theorem create_alloc_failure_undone_by_free (n n2 : Natives) (w : World)
    (options : dpiDeqOptions) (conn : Nat) (hconn : conn ≠ 0)
    (hret : 0 ≤ n.setRefCount) (halloc : n.descriptorAlloc ≠ OCI_SUCCESS) :
    (dpiDeqOptions__create n w options conn).rc = DPI_FAILURE ∧
    (dpiDeqOptions__create n w options conn).world.refCount conn = w.refCount conn + 1 ∧
    (dpiDeqOptions__create n w options conn).options.conn = conn ∧
    (dpiDeqOptions__free n2 (dpiDeqOptions__create n w options conn).world
        (dpiDeqOptions__create n w options conn).options).2.refCount conn
      = w.refCount conn := by
  have hr : ¬ n.setRefCount < 0 := not_lt.mpr hret
  unfold dpiDeqOptions__create
  by_cases hh : n.allocHandle = 0 <;>
    simp [dpiGen__setRefCount, hr, OCIDescriptorAlloc, dpiDeqOptions__free,
      OCIDescriptorFree, hconn, hh, dpiError__check, halloc]

/-- Witness of amended C4: the input of the counterexample. -/
theorem create_alloc_failure_undone_by_free_witness :
    (1 : Nat) ≠ 0 ∧ 0 ≤ allocFails.setRefCount ∧ allocFails.descriptorAlloc ≠ OCI_SUCCESS ∧
    (dpiDeqOptions__free allOk (dpiDeqOptions__create allocFails world0 optionsZero 1).world
        (dpiDeqOptions__create allocFails world0 optionsZero 1).options).2.refCount 1
      = world0.refCount 1 :=
  ⟨by decide, by decide, by decide,
   (create_alloc_failure_undone_by_free allocFails allOk world0 optionsZero 1 (by decide)
      (by decide) (by decide)).2.2.2⟩

/-- C10: when retaining the connection fails, `dpiDeqOptions__create` returns
`DPI_FAILURE`, the options object is as before (connection and handle keep
their values), the only call issued is the retain (no descriptor allocation),
and `dpiDeqOptions__free` on a zero-initialised object afterwards issues no
call and changes no reference count. -/
theorem create_retain_failure_touches_nothing (n n2 : Natives) (w : World)
    (options : dpiDeqOptions) (conn : Nat) (h : n.setRefCount < 0) :
    (dpiDeqOptions__create n w options conn).rc = DPI_FAILURE ∧
    (dpiDeqOptions__create n w options conn).options = options ∧
    issued w (dpiDeqOptions__create n w options conn).world
      = [Call.dpiGen__setRefCount conn 1] ∧
    (∀ c ∈ issued w (dpiDeqOptions__create n w options conn).world,
      c.isDescriptorAlloc = false) ∧
    (dpiDeqOptions__free n2 (dpiDeqOptions__create n w options conn).world optionsZero).2.refCount
      = (dpiDeqOptions__create n w options conn).world.refCount ∧
    (dpiDeqOptions__free n2 (dpiDeqOptions__create n w options conn).world optionsZero).2.calls
      = (dpiDeqOptions__create n w options conn).world.calls := by
  simp [dpiDeqOptions__create, dpiGen__setRefCount, h, issued, dpiDeqOptions__free,
    optionsZero, Call.isDescriptorAlloc]

/-- Witness of C10: the retain of connection 1 fails on a zero-initialised object. -/
theorem create_retain_failure_touches_nothing_witness :
    retainFails.setRefCount < 0 ∧
    (dpiDeqOptions__create retainFails world0 optionsZero 1).rc = DPI_FAILURE ∧
    (dpiDeqOptions__create retainFails world0 optionsZero 1).options = optionsZero :=
  ⟨by decide,
   (create_retain_failure_touches_nothing retainFails allOk world0 optionsZero 1
      (by decide)).1,
   (create_retain_failure_touches_nothing retainFails allOk world0 optionsZero 1
      (by decide)).2.1⟩

/-- The calls one teardown issues: the descriptor release when the handle is
set, followed by the drop of the connection reference when the connection is
set. -/
theorem free_issued (n : Natives) (w : World) (options : dpiDeqOptions) :
    issued w (dpiDeqOptions__free n w options).2 =
      (if options.handle ≠ 0 then [Call.OCIDescriptorFree options.handle] else []) ++
      (if options.conn ≠ 0 then [Call.dpiGen__setRefCount options.conn (-1)] else []) := by
  by_cases hh : options.handle = 0 <;> by_cases hc : options.conn = 0 <;>
    simp [dpiDeqOptions__free, OCIDescriptorFree, dpiGen__setRefCount, issued, hh, hc]

/-- One teardown leaves the handle and the connection of the object null. -/
theorem free_clears (n : Natives) (w : World) (options : dpiDeqOptions) :
    (dpiDeqOptions__free n w options).1 = optionsZero := by
  by_cases hh : options.handle = 0 <;> by_cases hc : options.conn = 0 <;>
    simp [dpiDeqOptions__free, optionsZero, hh, hc]
  cases options
  simp_all

/-- Counterexample to C7 as stated: a sequence of two teardown steps on one
object.  The first step returns the memory of the object (no object is left
behind the pointer), so the sequence of one step is defined and the sequence of
two steps has no defined result: no count of calls can be stated of it. -/
theorem second_teardown_undefined :
    (dpiDeqOptions__free allOk world0 options0).fields = optionsZero ∧
    (dpiDeqOptions__free allOk world0 options0).object = none ∧
    (teardownSeq [allOk] world0 (some options0)).isSome = true ∧
    (teardownSeq [allOk, allOk] world0 (some options0)).isSome = false := by
  decide

/-- C7 as amended: `dpiDeqOptions__free` issues the descriptor release (when the
handle is set) before the drop of the connection reference (when the connection
is set) and nothing else, and leaves handle and connection null; on an object
whose handle and connection are already null it issues no call and changes no
reference count; in one teardown the descriptor release is issued at most once
and the connection reference is dropped at most once; the teardown ends by
returning the memory of the object, so one teardown of an object is defined and
any further teardown step on the same object is not. -/
theorem free_order_once_per_object (n m : Natives) (ms : List Natives) (w : World)
    (options : dpiDeqOptions) :
    issued w (dpiDeqOptions__free n w options).2 =
      (if options.handle ≠ 0 then [Call.OCIDescriptorFree options.handle] else []) ++
      (if options.conn ≠ 0 then [Call.dpiGen__setRefCount options.conn (-1)] else []) ∧
    (dpiDeqOptions__free n w options).1 = { conn := 0, handle := 0 } ∧
    (dpiDeqOptions__free n w { conn := 0, handle := 0 }).2.calls = w.calls ∧
    (dpiDeqOptions__free n w { conn := 0, handle := 0 }).2.refCount = w.refCount ∧
    (issued w (dpiDeqOptions__free n w options).2).countP Call.isDescriptorFree ≤ 1 ∧
    (issued w (dpiDeqOptions__free n w options).2).countP Call.isConnRelease ≤ 1 ∧
    (dpiDeqOptions__free n w options).object = none ∧
    teardownSeq [n] w (some options) = some (dpiDeqOptions__free n w options).world ∧
    teardownSeq (n :: m :: ms) w (some options) = none := by
  refine ⟨free_issued n w options, free_clears n w options, ?_, ?_, ?_, ?_, rfl, rfl, rfl⟩
  · simp [dpiDeqOptions__free]
  · simp [dpiDeqOptions__free]
  · rw [free_issued]
    by_cases hh : options.handle = 0 <;> by_cases hc : options.conn = 0 <;>
      simp [hh, hc, Call.isDescriptorFree, List.countP_cons]
  · rw [free_issued]
    by_cases hh : options.handle = 0 <;> by_cases hc : options.conn = 0 <;>
      simp [hh, hc, Call.isConnRelease, List.countP_cons]

/-- Counterexample to C8 as stated: on an open handle the wrap and the assignment
succeed and the shrink `OCIRawResize` fails; `dpiDeqOptions_setMsgId` returns
`DPI_SUCCESS` while the temporary container still holds the four bytes of
"SUB1": it was not shrunk to length zero and the staging buffer is not
released. -/
theorem setMsgId_container_kept_when_shrink_fails :
    0 ≤ shrinkFails.startPublicFn ∧
    shrinkFails.rawAssignBytes = OCI_SUCCESS ∧
    (dpiDeqOptions_setMsgId shrinkFails world0 options0 SUB1 4).out = SUB1 ∧
    (dpiDeqOptions_setMsgId shrinkFails world0 options0 SUB1 4).out.length = 4 ∧
    (dpiDeqOptions_setMsgId shrinkFails world0 options0 SUB1 4).rc = DPI_SUCCESS := by
  decide

/-- C8 as amended: on an open handle, whenever the wrap step `OCIRawAssignBytes`
succeeds, `dpiDeqOptions_setMsgId` issues exactly the wrap, the attribute
assignment and one shrink of the container to length zero, in this order,
whatever the status of the assignment; the return code is the check of the
assignment status; the container is at length zero on return when that shrink
succeeds, and still holds the wrapped bytes when it fails, the status of the
shrink not being looked at. -/
theorem setMsgId_shrinks_once_after_assign (n : Natives) (w : World)
    (options : dpiDeqOptions) (value : List Nat) (valueLength : Nat)
    (hopen : 0 ≤ n.startPublicFn) (hwrap : n.rawAssignBytes = OCI_SUCCESS) :
    issued w (dpiDeqOptions_setMsgId n w options value valueLength).world =
      [Call.OCIRawAssignBytes value valueLength n.rawAssignBytes,
       Call.OCIAttrSet options.handle Attr.OCI_ATTR_DEQ_MSGID
         (AttrValue.raw (value.take valueLength)) valueLength n.attrSet,
       Call.OCIRawResize 0 n.rawResize] ∧
    (issued w (dpiDeqOptions_setMsgId n w options value valueLength).world).countP
      Call.isRawShrink = 1 ∧
    (dpiDeqOptions_setMsgId n w options value valueLength).rc = dpiError__check n.attrSet ∧
    (n.rawResize = OCI_SUCCESS →
      (dpiDeqOptions_setMsgId n w options value valueLength).out = []) ∧
    (n.rawResize ≠ OCI_SUCCESS →
      (dpiDeqOptions_setMsgId n w options value valueLength).out
        = value.take valueLength) := by
  have hs : ¬ n.startPublicFn < 0 := not_lt.mpr hopen
  refine ⟨?_, ?_, ?_, ?_, ?_⟩
  · simp [dpiDeqOptions_setMsgId, hs, hwrap, OCIRawAssignBytes, OCIAttrSet, OCIRawResize,
      dpiError__check, DPI_SUCCESS, issued]
  · simp [dpiDeqOptions_setMsgId, hs, hwrap, OCIRawAssignBytes, OCIAttrSet, OCIRawResize,
      dpiError__check, DPI_SUCCESS, issued, Call.isRawShrink, List.countP_cons]
  · simp [dpiDeqOptions_setMsgId, hs, hwrap, OCIRawAssignBytes, OCIAttrSet, OCIRawResize,
      dpiError__check, DPI_SUCCESS]
  · intro hz
    simp [dpiDeqOptions_setMsgId, hs, hwrap, hz, OCIRawAssignBytes, OCIAttrSet, OCIRawResize,
      dpiError__check, DPI_SUCCESS]
  · intro hz
    simp [dpiDeqOptions_setMsgId, hs, hwrap, hz, OCIRawAssignBytes, OCIAttrSet, OCIRawResize,
      dpiError__check, DPI_SUCCESS]

/-- Witness of amended C8: the wrap succeeds, the assignment fails and the shrink
succeeds; the shrink is issued once, after the assignment, and the container is
at length zero on return. -/
theorem setMsgId_shrinks_once_after_assign_witness :
    0 ≤ assignFails.startPublicFn ∧ assignFails.rawAssignBytes = OCI_SUCCESS ∧
    assignFails.rawResize = OCI_SUCCESS ∧
    issued world0 (dpiDeqOptions_setMsgId assignFails world0 options0 SUB1 4).world =
      [Call.OCIRawAssignBytes SUB1 4 0,
       Call.OCIAttrSet 7 Attr.OCI_ATTR_DEQ_MSGID (AttrValue.raw SUB1) 4 (-1),
       Call.OCIRawResize 0 0] ∧
    (dpiDeqOptions_setMsgId assignFails world0 options0 SUB1 4).rc = DPI_FAILURE ∧
    (dpiDeqOptions_setMsgId assignFails world0 options0 SUB1 4).out = [] :=
  ⟨by decide, by decide, by decide,
   (setMsgId_shrinks_once_after_assign assignFails world0 options0 SUB1 4 (by decide)
      (by decide)).1,
   (setMsgId_shrinks_once_after_assign assignFails world0 options0 SUB1 4 (by decide)
      (by decide)).2.2.1,
   (setMsgId_shrinks_once_after_assign assignFails world0 options0 SUB1 4 (by decide)
      (by decide)).2.2.2.1 (by decide)⟩

/-- Counterexample to C6 as stated: `dpiDeqOptions_setMsgId` on an open handle
where the wrap and the assignment succeed and the shrink `OCIRawResize` returns
the failure status `-1`: the shrink is among the calls issued, its status is a
failure status, and the function returns `DPI_SUCCESS`. -/
theorem setMsgId_discards_shrink_status :
    0 ≤ shrinkFails.startPublicFn ∧
    Call.OCIRawResize 0 (-1) ∈
      issued world0 (PublicFn.setMsgId.call shrinkFails world0 options0 args0 outs0).world ∧
    (Call.OCIRawResize 0 (-1)).status = some (-1) ∧
    (-1 : sword) ≠ OCI_SUCCESS ∧
    (PublicFn.setMsgId.call shrinkFails world0 options0 args0 outs0).rc = DPI_SUCCESS ∧
    (PublicFn.setMsgId.call shrinkFails world0 options0 args0 outs0).rc ≠ DPI_FAILURE := by
  decide

/-- C6 as amended: for every public getter and setter, if a native call it issued
other than the container shrink `OCIRawResize` returned a failure status, the
function returns `DPI_FAILURE`; the status of the shrink in
`dpiDeqOptions_setMsgId` is not looked at: the return code is the same for every
status of the shrink. -/
theorem native_failure_surfaced_except_shrink (f : PublicFn) (n : Natives) (w : World)
    (options : dpiDeqOptions) (a : Args) (o : Outs) :
    (∀ (c : Call) (s : sword), c ∈ issued w (f.call n w options a o).world →
      c.isRawResize = false → c.status = some s → s ≠ OCI_SUCCESS →
      (f.call n w options a o).rc = DPI_FAILURE) ∧
    (∀ s2 : sword,
      (f.call { n with rawResize := s2 } w options a o).rc = (f.call n w options a o).rc) := by
  constructor
  · intro c s hc hk hs hf
    cases f <;>
      simp [PublicFn.call, Outs.withText, Outs.withNum, Outs.keep, issued,
        dpiDeqOptions_getCondition, dpiDeqOptions_getConsumerName,
        dpiDeqOptions_getCorrelation, dpiDeqOptions_getTransformation, dpiDeqOptions_getMode,
        dpiDeqOptions_getNavigation, dpiDeqOptions_getVisibility, dpiDeqOptions_getWait,
        dpiDeqOptions_getMsgId, dpiDeqOptions_setCondition, dpiDeqOptions_setConsumerName,
        dpiDeqOptions_setCorrelation, dpiDeqOptions_setTransformation, dpiDeqOptions_setMode,
        dpiDeqOptions_setNavigation, dpiDeqOptions_setVisibility, dpiDeqOptions_setWait,
        dpiDeqOptions_setDeliveryMode, dpiDeqOptions_setMsgId,
        dpiDeqOptions__getAttrValue, dpiDeqOptions__setAttrValue, writeText,
        writeNum, OCIAttrGet, OCIAttrSet, OCIRawAssignBytes, OCIRawResize, OCIRawPtr,
        OCIRawSize, dpiError__check, DPI_FAILURE, DPI_SUCCESS, OCI_SUCCESS] at hc hf ⊢ <;>
      split_ifs at hc ⊢ <;>
      simp_all [Call.status, Call.isRawResize] <;>
      rcases hc with h | h | h <;>
      subst h <;>
      simp_all
  · intro s2
    cases f <;>
      simp [PublicFn.call, Outs.withText, Outs.withNum, Outs.keep,
        dpiDeqOptions_getCondition, dpiDeqOptions_getConsumerName,
        dpiDeqOptions_getCorrelation, dpiDeqOptions_getTransformation, dpiDeqOptions_getMode,
        dpiDeqOptions_getNavigation, dpiDeqOptions_getVisibility, dpiDeqOptions_getWait,
        dpiDeqOptions_getMsgId, dpiDeqOptions_setCondition, dpiDeqOptions_setConsumerName,
        dpiDeqOptions_setCorrelation, dpiDeqOptions_setTransformation, dpiDeqOptions_setMode,
        dpiDeqOptions_setNavigation, dpiDeqOptions_setVisibility, dpiDeqOptions_setWait,
        dpiDeqOptions_setDeliveryMode, dpiDeqOptions_setMsgId,
        dpiDeqOptions__getAttrValue, dpiDeqOptions__setAttrValue, writeText,
        writeNum, OCIAttrGet, OCIAttrSet, OCIRawAssignBytes, OCIRawResize, OCIRawPtr,
        OCIRawSize]
    by_cases h1 : n.startPublicFn < 0
    · simp [h1]
    · by_cases h2 : dpiError__check n.rawAssignBytes < 0 <;> simp [h1, h2]

/-- Witness of amended C6: in `dpiDeqOptions_setMsgId` the assignment `OCIAttrSet`
returns the failure status `-1` and the function returns `DPI_FAILURE`. -/
theorem native_failure_surfaced_except_shrink_witness :
    Call.OCIAttrSet 7 Attr.OCI_ATTR_DEQ_MSGID (AttrValue.raw SUB1) 4 (-1) ∈
      issued world0 (PublicFn.setMsgId.call assignFails world0 options0 args0 outs0).world ∧
    (Call.OCIAttrSet 7 Attr.OCI_ATTR_DEQ_MSGID (AttrValue.raw SUB1) 4 (-1)).isRawResize
      = false ∧
    (Call.OCIAttrSet 7 Attr.OCI_ATTR_DEQ_MSGID (AttrValue.raw SUB1) 4 (-1)).status
      = some (-1) ∧
    (-1 : sword) ≠ OCI_SUCCESS ∧
    (PublicFn.setMsgId.call assignFails world0 options0 args0 outs0).rc = DPI_FAILURE :=
  ⟨by decide, by decide, by decide, by decide,
   (native_failure_surfaced_except_shrink PublicFn.setMsgId assignFails world0 options0 args0
      outs0).1 (Call.OCIAttrSet 7 Attr.OCI_ATTR_DEQ_MSGID (AttrValue.raw SUB1) 4 (-1)) (-1)
      (by decide) (by decide) (by decide) (by decide)⟩

end DpiDeqOptions
